import Mathlib

/-!
Verification development for the ESP32 CO2 data stream server
(src/server/run.py): a shallow embedding of the session-bounded stream
buffering and broadcast engine, together with theorems about its
state machine.

Modelling conventions:
- Time is modelled as natural-number time units; the elapsed-time test
  in check_stream_timeout (elapsed > STREAM_TIMEOUT_SEC) becomes
  STREAM_TIMEOUT_SEC < now - t on Nat.
- The asyncio lock serializes the handler body, the monitor tick body
  and the stats read; each of those critical sections contains no
  suspension point inside it, so each is modelled as one atomic step.
- numpy persistence (np.save) may raise; the try/except in
  save_buffer_to_npy catches and logs, so persistence is modelled by a
  Boolean oracle saveOk: on success the snapshot is appended to the
  list of saved recordings, on failure nothing is.
- np.mean is modelled exactly over the rationals; np.std is represented
  by the variance field var (std is the square root of var, which is
  order-irrelevant for the properties proved here).
-/

set_option autoImplicit false

namespace CO2Server

/-- Models Python str.strip: remove leading and trailing whitespace. -/
def pyStrip (cs : List Char) : List Char :=
  ((cs.dropWhile Char.isWhitespace).reverse.dropWhile Char.isWhitespace).reverse

/-- Split a character list at every newline character, Python
str.split with a newline separator: adjacent separators yield empty
pieces and the empty input yields one empty piece. -/
def splitNl : List Char → List (List Char)
  | [] => [[]]
  | c :: cs =>
      let r := splitNl cs
      if c = '\n' then [] :: r
      else
        match r with
        | [] => [[c]]
        | h :: t => (c :: h) :: t

/-- Split at every whitespace character, keeping empty pieces. -/
def splitWsAux : List Char → List (List Char)
  | [] => [[]]
  | c :: cs =>
      let r := splitWsAux cs
      if c.isWhitespace then [] :: r
      else
        match r with
        | [] => [[c]]
        | h :: t => (c :: h) :: t

/-- Models Python str.split() with no separator: split on whitespace
runs, dropping empty pieces. -/
def pySplitWs (cs : List Char) : List (List Char) :=
  (splitWsAux cs).filter (fun p => p ≠ [])

/-- Decimal value of a digit list, most significant first. -/
def digitsVal (cs : List Char) : Nat :=
  cs.foldl (fun a c => a * 10 + (c.toNat - 48)) 0

/-- Models Python int(s) on a whitespace-free token: an optional sign
followed by a non-empty run of decimal digits; anything else raises
ValueError, modelled as none. -/
def pyInt (s : List Char) : Option Int :=
  match s with
  | [] => none
  | '+' :: rest =>
      if rest ≠ [] ∧ rest.all Char.isDigit then some (digitsVal rest) else none
  | '-' :: rest =>
      if rest ≠ [] ∧ rest.all Char.isDigit then some (-(digitsVal rest : Int)) else none
  | cs =>
      if cs.all Char.isDigit then some (digitsVal cs) else none

/-- One iteration of the line loop in receive_co2_raw_data: strip the
line, skip it unless it starts with Z or z, split on whitespace, and
parse the second field as an integer; parse failures are logged and
skipped (none). -/
def parse_co2_line (line : List Char) : Option Int :=
  let l := pyStrip line
  match l with
  | [] => none
  | c :: _ =>
      if c = 'Z' ∨ c = 'z' then
        match pySplitWs l with
        | _ :: p1 :: _ => pyInt p1
        | _ => none
      else none

/-- The line-extraction phase of receive_co2_raw_data: strip the body,
split it on newline characters, and collect the integers parsed from
the valid Z-lines, in order. -/
def extract_z_values (body : String) : List Int :=
  (splitNl (pyStrip body.data)).filterMap parse_co2_line

/-- The module-level session state of run.py: data_stream_buffer,
last_data_time, is_receiving and the two statistics counters. -/
structure ServerState where
  data_stream_buffer : List Int
  last_data_time : Option Nat
  is_receiving : Bool
  total_batches_received : Nat
  total_points_received : Nat
  deriving Repr, DecidableEq

/-- Initial module state: empty buffer, no timestamp, not receiving,
zero counters. -/
def initServerState : ServerState :=
  { data_stream_buffer := []
    last_data_time := none
    is_receiving := false
    total_batches_received := 0
    total_points_received := 0 }

/-- STREAM_TIMEOUT_SEC = 5.0, in whole time units. -/
def STREAM_TIMEOUT_SEC : Nat := 5

/-- The whole observable system: the module state, the list of
persisted npy snapshots (in save order), and the number of live
check_stream_timeout tasks. -/
structure World where
  st : ServerState
  saved : List (List Int)
  monitors : Nat
  deriving Repr, DecidableEq

/-- Initial world: initial state, nothing persisted, no monitor task. -/
def initWorld : World :=
  { st := initServerState, saved := [], monitors := 0 }

/-- save_buffer_to_npy: a no-op on an empty buffer; otherwise writes
one npy file holding exactly the buffer contents. A write failure is
caught and logged (saveOk = false: nothing is persisted); the function
never raises to its caller. -/
def save_buffer_to_npy (saved : List (List Int)) (buf : List Int)
    (saveOk : Bool) : List (List Int) :=
  if buf = [] then saved
  else if saveOk then saved ++ [buf] else saved

/-- The POST /co2_data handler receive_co2_raw_data: extract the
integers from the body; if none, raise HTTP 400 "No valid data" before
touching any state; otherwise, under the lock: on Idle start a new
session (replace the buffer, zero the counters, spawn a monitor task),
on Receiving append to the buffer; then stamp last_data_time and bump
both counters. Returns the accepted count. -/
def receive_co2_raw_data (w : World) (body : String) (now : Nat) :
    Except String (World × Nat) :=
  let raw := extract_z_values body
  if raw = [] then
    Except.error "No valid data"
  else
    let st := w.st
    let st1 :=
      if st.is_receiving then
        { st with data_stream_buffer := st.data_stream_buffer ++ raw }
      else
        { st with is_receiving := true
                  data_stream_buffer := raw
                  total_batches_received := 0
                  total_points_received := 0 }
    let st2 :=
      { st1 with
          last_data_time := some now
          total_batches_received := st1.total_batches_received + 1
          total_points_received := st1.total_points_received + raw.length }
    let monitors2 := if st.is_receiving then w.monitors else w.monitors + 1
    Except.ok ({ st := st2, saved := w.saved, monitors := monitors2 }, raw.length)

/-- One wake-up of a check_stream_timeout task at time now: if no task
is alive nothing happens; a live task first re-tests the while
condition (is_receiving) and exits its loop if it fails; otherwise,
under the lock: continue when last_data_time is unset, and when the
elapsed time exceeds STREAM_TIMEOUT_SEC persist the buffer, clear it,
leave Receiving, clear the timestamp and break out of the loop. From
lock acquisition to loop exit the fire path has no suspension point,
so it is one atomic step. -/
def check_stream_timeout_tick (w : World) (now : Nat) (saveOk : Bool) : World :=
  if w.monitors = 0 then w
  else if w.st.is_receiving = false then
    { w with monitors := w.monitors - 1 }
  else
    match w.st.last_data_time with
    | none => w
    | some t =>
        if STREAM_TIMEOUT_SEC < now - t then
          { st := { w.st with
                      data_stream_buffer := []
                      is_receiving := false
                      last_data_time := none }
            saved := save_buffer_to_npy w.saved w.st.data_stream_buffer saveOk
            monitors := w.monitors - 1 }
        else w

/-- An atomic event of the system: one ingestion request, or one
monitor wake-up (with the persistence oracle for a potential save). -/
inductive Event where
  | ingest (body : String) (now : Nat)
  | tick (now : Nat) (saveOk : Bool)
  deriving Repr, DecidableEq

/-- Effect of one event on the world; a rejected ingestion raises
before mutating anything, so it leaves the world unchanged. -/
def stepFn (w : World) (e : Event) : World :=
  match e with
  | Event.ingest body now =>
      match receive_co2_raw_data w body now with
      | Except.error _ => w
      | Except.ok (w2, _) => w2
  | Event.tick now saveOk => check_stream_timeout_tick w now saveOk

/-- Run a sequence of events from a world. -/
def runTrace (w : World) (es : List Event) : World :=
  es.foldl stepFn w

/-- The worlds reachable from the initial world. -/
inductive Reachable : World → Prop where
  | init : Reachable initWorld
  | step : ∀ {w : World} (e : Event), Reachable w → Reachable (stepFn w e)

/-- numpy sum of the buffer. -/
def listSum (l : List Int) : Int := l.foldl (fun a x => a + x) 0

/-- np.min of a non-empty buffer (0 as a junk value on empty, which
get_stats never reaches). -/
def listMin : List Int → Int
  | [] => 0
  | x :: xs => xs.foldl min x

/-- np.max of a non-empty buffer (0 as a junk value on empty). -/
def listMax : List Int → Int
  | [] => 0
  | x :: xs => xs.foldl max x

/-- np.mean over the rationals. -/
def npMean (l : List Int) : ℚ := (listSum l : ℚ) / (l.length : ℚ)

/-- The variance of the buffer: np.std squared, over the rationals. -/
def npVar (l : List Int) : ℚ :=
  (l.map (fun x => ((x : ℚ) - npMean l) ^ 2)).sum / (l.length : ℚ)

/-- The JSON body of the GET /stats response when data is present.
The std field of the response is the square root of var. -/
structure StatsResponse where
  status : String
  total_points : Nat
  total_batches : Nat
  average : ℚ
  min : Int
  max : Int
  var : ℚ
  last_update : Option Nat
  deriving Repr, DecidableEq

/-- The GET /stats handler get_stats, under the lock: answer
status = no_data (none) when the buffer is empty, else report the
current session statistics with status "active" while receiving and
"ended" otherwise. -/
def get_stats (st : ServerState) : Option StatsResponse :=
  if st.data_stream_buffer = [] then none
  else
    some
      { status := if st.is_receiving then "active" else "ended"
        total_points := st.data_stream_buffer.length
        total_batches := st.total_batches_received
        average := npMean st.data_stream_buffer
        min := listMin st.data_stream_buffer
        max := listMax st.data_stream_buffer
        var := npVar st.data_stream_buffer
        last_update := st.last_data_time }

/-- A rejected ingestion (empty extraction) raises before touching any
state, so the step is the identity. -/
theorem stepFn_ingest_empty (w : World) (body : String) (now : Nat)
    (h : extract_z_values body = []) :
    stepFn w (Event.ingest body now) = w := by
  simp [stepFn, receive_co2_raw_data, h]

/-- Ingesting a non-empty batch while Idle: replace the buffer, reset
and bump the counters, stamp the time, spawn one monitor. -/
theorem stepFn_ingest_idle (w : World) (body : String) (now : Nat)
    (hidle : w.st.is_receiving = false)
    (hne : extract_z_values body ≠ []) :
    stepFn w (Event.ingest body now) =
      { st :=
          { data_stream_buffer := extract_z_values body
            last_data_time := some now
            is_receiving := true
            total_batches_received := 1
            total_points_received := (extract_z_values body).length }
        saved := w.saved
        monitors := w.monitors + 1 } := by
  simp [stepFn, receive_co2_raw_data, hne, hidle]

/-- Ingesting a non-empty batch while Receiving: append to the buffer,
refresh the time, bump the counters, leave the monitor count alone. -/
theorem stepFn_ingest_recv (w : World) (body : String) (now : Nat)
    (hrecv : w.st.is_receiving = true)
    (hne : extract_z_values body ≠ []) :
    stepFn w (Event.ingest body now) =
      { st :=
          { data_stream_buffer := w.st.data_stream_buffer ++ extract_z_values body
            last_data_time := some now
            is_receiving := true
            total_batches_received := w.st.total_batches_received + 1
            total_points_received :=
              w.st.total_points_received + (extract_z_values body).length }
        saved := w.saved
        monitors := w.monitors } := by
  simp [stepFn, receive_co2_raw_data, hne, hrecv]

/-- A tick event steps by check_stream_timeout_tick. -/
theorem stepFn_tick (w : World) (now : Nat) (saveOk : Bool) :
    stepFn w (Event.tick now saveOk) = check_stream_timeout_tick w now saveOk := rfl

/-- A tick with no live monitor task changes nothing. -/
theorem tick_no_monitor (w : World) (now : Nat) (saveOk : Bool)
    (h : w.monitors = 0) :
    check_stream_timeout_tick w now saveOk = w := by
  simp [check_stream_timeout_tick, h]

/-- A tick while Receiving with a fresh timestamp (gap within the
threshold) changes nothing. -/
theorem tick_no_fire (w : World) (t now : Nat) (saveOk : Bool)
    (hrecv : w.st.is_receiving = true)
    (hlast : w.st.last_data_time = some t)
    (hgap : now - t ≤ STREAM_TIMEOUT_SEC) :
    check_stream_timeout_tick w now saveOk = w := by
  by_cases hm : w.monitors = 0
  · simp [check_stream_timeout_tick, hm]
  · simp [check_stream_timeout_tick, hm, hrecv, hlast, Nat.not_lt.mpr hgap]

/-- A tick from a live monitor while Receiving past the threshold:
persist the buffer, clear the session, terminate the monitor. -/
theorem tick_fire (w : World) (t now : Nat) (saveOk : Bool)
    (hmon : w.monitors ≠ 0)
    (hrecv : w.st.is_receiving = true)
    (hlast : w.st.last_data_time = some t)
    (hgap : STREAM_TIMEOUT_SEC < now - t) :
    check_stream_timeout_tick w now saveOk =
      { st := { w.st with
                  data_stream_buffer := []
                  is_receiving := false
                  last_data_time := none }
        saved := save_buffer_to_npy w.saved w.st.data_stream_buffer saveOk
        monitors := w.monitors - 1 } := by
  simp [check_stream_timeout_tick, hmon, hrecv, hlast, hgap]

/-- The global state invariant of run.py: the buffer is empty exactly
when the stream is idle, the timestamp is set exactly when receiving,
and there is one live monitor task when receiving and none otherwise. -/
def FullInv (w : World) : Prop :=
  (w.st.data_stream_buffer = [] ↔ w.st.is_receiving = false) ∧
  (w.st.last_data_time.isSome = w.st.is_receiving) ∧
  w.monitors = (if w.st.is_receiving then 1 else 0)

/-- The initial world satisfies the global invariant. -/
theorem fullInv_init : FullInv initWorld := by
  refine ⟨?_, ?_, ?_⟩ <;> simp [initWorld, initServerState]

/-- Every atomic event preserves the global invariant. -/
theorem fullInv_step (w : World) (e : Event) (h : FullInv w) :
    FullInv (stepFn w e) := by
  obtain ⟨hbuf, hlast, hmon⟩ := h
  cases e with
  | ingest body now =>
      by_cases hne : extract_z_values body = []
      · rw [stepFn_ingest_empty w body now hne]
        exact ⟨hbuf, hlast, hmon⟩
      · cases hrecv : w.st.is_receiving with
        | false =>
            rw [stepFn_ingest_idle w body now hrecv hne]
            refine ⟨by simpa using hne, by simp, ?_⟩
            simp only [hrecv, if_false] at hmon
            simp [hmon]
        | true =>
            rw [stepFn_ingest_recv w body now hrecv hne]
            refine ⟨by simp [hne], by simp, ?_⟩
            simpa [hrecv] using hmon
  | tick now saveOk =>
      rw [stepFn_tick]
      cases hrecv : w.st.is_receiving with
      | false =>
          have hm0 : w.monitors = 0 := by simpa [hrecv] using hmon
          rw [tick_no_monitor w now saveOk hm0]
          exact ⟨hbuf, hlast, hmon⟩
      | true =>
          have hm1 : w.monitors = 1 := by simpa [hrecv] using hmon
          have hsome : w.st.last_data_time.isSome = true := by
            rw [hlast, hrecv]
          obtain ⟨t, ht⟩ := Option.isSome_iff_exists.mp hsome
          by_cases hgap : STREAM_TIMEOUT_SEC < now - t
          · rw [tick_fire w t now saveOk (by simp [hm1]) hrecv ht hgap]
            exact ⟨by simp, by simp, by simp [hm1]⟩
          · rw [tick_no_fire w t now saveOk hrecv ht (Nat.not_lt.mp hgap)]
            exact ⟨hbuf, hlast, hmon⟩

/-- Every reachable world satisfies the global invariant. -/
theorem fullInv_reachable (w : World) (h : Reachable w) : FullInv w := by
  induction h with
  | init => exact fullInv_init
  | step e _ ih => exact fullInv_step _ e ih

/-- A session is open: the stream is receiving and a last-activity
timestamp is recorded. -/
def MidSession (w : World) : Prop :=
  w.st.is_receiving = true ∧ w.st.last_data_time.isSome = true

/-- Timeliness of one event against a world: an ingestion must extract
at least one integer, and a monitor wake-up must happen while the gap
since the recorded last activity is still within the threshold. -/
def evOk (w : World) : Event → Bool
  | Event.ingest body _ => !(extract_z_values body).isEmpty
  | Event.tick now _ =>
      match w.st.last_data_time with
      | none => true
      | some t => decide (now - t ≤ STREAM_TIMEOUT_SEC)

/-- Timeliness of a whole event trace, checked against the evolving
world. -/
def TraceOk (w : World) : List Event → Bool
  | [] => true
  | e :: es => evOk w e && TraceOk (stepFn w e) es

/-- The extracted batches of the ingestion events of a trace, in
order. -/
def sessionBatches (es : List Event) : List (List Int) :=
  es.filterMap fun e =>
    match e with
    | Event.ingest body _ => some (extract_z_values body)
    | Event.tick _ _ => none

/-- A timely prefix of a timely trace is timely. -/
theorem traceOk_append_left (w : World) (p q : List Event)
    (h : TraceOk w (p ++ q) = true) : TraceOk w p = true := by
  induction p generalizing w with
  | nil => rfl
  | cons e es ih =>
      simp only [List.cons_append, TraceOk, Bool.and_eq_true] at h ⊢
      exact ⟨h.1, ih _ h.2⟩

/-- A timely event keeps an open session open and either appends its
extracted batch to the buffer (ingestion) or leaves the whole world
unchanged (monitor wake-up within the threshold). -/
theorem mid_step (w : World) (e : Event) (hm : MidSession w)
    (he : evOk w e = true) :
    MidSession (stepFn w e) ∧
      (stepFn w e).st.data_stream_buffer =
        w.st.data_stream_buffer ++ (sessionBatches [e]).flatten ∧
      (stepFn w e).saved = w.saved := by
  obtain ⟨hrecv, hsome⟩ := hm
  cases e with
  | ingest body now =>
      have hne : extract_z_values body ≠ [] := by
        simpa [evOk, List.isEmpty_iff] using he
      rw [stepFn_ingest_recv w body now hrecv hne]
      refine ⟨⟨rfl, rfl⟩, ?_, rfl⟩
      simp [sessionBatches]
  | tick now saveOk =>
      obtain ⟨t, ht⟩ := Option.isSome_iff_exists.mp hsome
      have hgap : now - t ≤ STREAM_TIMEOUT_SEC := by
        simpa [evOk, ht] using he
      rw [stepFn_tick, tick_no_fire w t now saveOk hrecv ht hgap]
      exact ⟨⟨hrecv, hsome⟩, by simp [sessionBatches], rfl⟩

/-- Running a timely trace from an open session keeps it open, appends
exactly the concatenation of the ingested batches to the buffer, and
persists nothing. -/
theorem mid_run (w : World) (es : List Event) (hm : MidSession w)
    (ht : TraceOk w es = true) :
    MidSession (runTrace w es) ∧
      (runTrace w es).st.data_stream_buffer =
        w.st.data_stream_buffer ++ (sessionBatches es).flatten ∧
      (runTrace w es).saved = w.saved := by
  induction es generalizing w with
  | nil =>
      refine ⟨hm, ?_, rfl⟩
      simp [runTrace, sessionBatches]
  | cons e es ih =>
      simp only [TraceOk, Bool.and_eq_true] at ht
      obtain ⟨hstep, hbuf, hsaved⟩ := mid_step w e hm ht.1
      obtain ⟨hstep2, hbuf2, hsaved2⟩ := ih (stepFn w e) hstep ht.2
      have hrun : runTrace w (e :: es) = runTrace (stepFn w e) es := rfl
      refine ⟨hrun ▸ hstep2, ?_, ?_⟩
      · rw [hrun, hbuf2, hbuf]
        cases e <;> simp [sessionBatches, List.append_assoc]
      · rw [hrun, hsaved2, hsaved]

/-- Is the event a monitor wake-up (as opposed to an ingestion)? -/
def Event.isTick : Event → Bool
  | Event.tick _ _ => true
  | Event.ingest _ _ => false

/-- With no live monitor task, any sequence of monitor wake-ups leaves
the world unchanged. -/
theorem ticks_fixed (w : World) (es : List Event) (hm : w.monitors = 0)
    (hts : ∀ e ∈ es, Event.isTick e = true) : runTrace w es = w := by
  induction es with
  | nil => rfl
  | cons e es ih =>
      cases e with
      | ingest body now =>
          exact absurd (hts (Event.ingest body now) (by simp))
            (by simp [Event.isTick])
      | tick now saveOk =>
          have : runTrace w (Event.tick now saveOk :: es)
              = runTrace (stepFn w (Event.tick now saveOk)) es := rfl
          rw [this, stepFn_tick, tick_no_monitor w now saveOk hm]
          exact ih fun e he => hts e (by simp [he])

/-- A WebSocket observer in ConnectionManager.active_connections,
identified by its connection identity; sendOk records whether
send_text on this connection succeeds or raises. -/
structure Observer where
  oid : Nat
  sendOk : Bool
  deriving Repr, DecidableEq

/-- json.dumps on a list of integers: bracketed, comma-space
separated. -/
def json_dumps (data : List Int) : String :=
  "[" ++ String.intercalate ", " (data.map toString) ++ "]"

/-- The send loop of ConnectionManager.broadcast_data: attempt the
serialized message on every connection in order; a raising send is
caught, logged and the connection collected into the disconnected
list. Returns the successful deliveries and the disconnected list,
both in connection order. -/
def send_attempts : List Observer → String → List (Observer × String) × List Observer
  | [], _ => ([], [])
  | c :: rest, msg =>
      let r := send_attempts rest msg
      if c.sendOk then ((c, msg) :: r.1, r.2) else (r.1, c :: r.2)

/-- ConnectionManager.disconnect: remove the first occurrence of the
connection if present, otherwise do nothing. -/
def disconnect (conns : List Observer) (ws : Observer) : List Observer :=
  if ws ∈ conns then conns.erase ws else conns

/-- ConnectionManager.broadcast_data: serialize once, attempt delivery
to every connection, then disconnect every connection whose send
failed. Returns the deliveries made and the connection list
afterwards. The whole function catches every send error, so it never
raises to its caller. -/
def broadcast_data (conns : List Observer) (data : List Int) :
    List (Observer × String) × List Observer :=
  let msg := json_dumps data
  let r := send_attempts conns msg
  (r.1, r.2.foldl disconnect conns)

/-- The deliveries of the send loop are exactly one message per
healthy connection, in order, independent of any failures. -/
theorem send_attempts_fst (conns : List Observer) (msg : String) :
    (send_attempts conns msg).1 =
      (conns.filter fun c => c.sendOk).map fun c => (c, msg) := by
  induction conns with
  | nil => rfl
  | cons c rest ih =>
      by_cases h : c.sendOk = true
      · simp [send_attempts, h, ih]
      · simp [send_attempts, List.filter_cons,
          Bool.eq_false_iff.mpr h, ih]

/-- The disconnected list of the send loop is exactly the failing
connections, in order. -/
theorem send_attempts_snd (conns : List Observer) (msg : String) :
    (send_attempts conns msg).2 = conns.filter fun c => !c.sendOk := by
  induction conns with
  | nil => rfl
  | cons c rest ih =>
      by_cases h : c.sendOk = true
      · simp [send_attempts, h, ih]
      · simp [send_attempts, List.filter_cons,
          Bool.eq_false_iff.mpr h, h, ih]

/-- Disconnecting a connection different from the head leaves the head
in place. -/
theorem disconnect_cons (c x : Observer) (l : List Observer) (hne : x ≠ c) :
    disconnect (c :: l) x = c :: disconnect l x := by
  by_cases hmem : x ∈ l
  · have hmem2 : x ∈ c :: l := List.mem_cons_of_mem c hmem
    simp only [disconnect, if_pos hmem, if_pos hmem2]
    exact List.erase_cons_tail (not_beq_of_ne fun h => hne h.symm)
  · have hmem2 : x ∉ c :: l := by
      intro h
      rcases List.mem_cons.mp h with h | h
      · exact hne h
      · exact hmem h
    simp [disconnect, hmem, hmem2]

/-- Disconnecting a batch of connections, none of which is the head,
leaves the head in place. -/
theorem foldl_disconnect_cons (fs : List Observer) (c : Observer)
    (l : List Observer) (h : ∀ x ∈ fs, x ≠ c) :
    fs.foldl disconnect (c :: l) = c :: fs.foldl disconnect l := by
  induction fs generalizing l with
  | nil => rfl
  | cons f fs ih =>
      have h1 : f ≠ c := h f (by simp)
      simp only [List.foldl_cons, disconnect_cons c f l h1]
      exact ih (disconnect l f) fun x hx => h x (by simp [hx])

/-- Disconnecting exactly the failing connections from the connection
list keeps exactly the healthy connections, in order. -/
theorem foldl_disconnect_failures (conns : List Observer) :
    (conns.filter fun c => !c.sendOk).foldl disconnect conns =
      conns.filter fun c => c.sendOk := by
  induction conns with
  | nil => rfl
  | cons c rest ih =>
      by_cases h : c.sendOk = true
      · have hfil : ((c :: rest).filter fun c => !c.sendOk)
            = rest.filter fun c => !c.sendOk := by
          simp [List.filter_cons, h]
        rw [hfil]
        have hne : ∀ x ∈ (rest.filter fun c => !c.sendOk), x ≠ c := by
          intro x hx hxc
          have : (!x.sendOk) = true := (List.mem_filter.mp hx).2
          rw [hxc, h] at this
          simp at this
        rw [foldl_disconnect_cons _ c rest hne, ih]
        simp [List.filter_cons, h]
      · have hb : c.sendOk = false := Bool.eq_false_iff.mpr h
        have hfil : ((c :: rest).filter fun c => !c.sendOk)
            = c :: rest.filter fun c => !c.sendOk := by
          simp [List.filter_cons, hb]
        rw [hfil]
        have hd : disconnect (c :: rest) c = rest := by
          simp [disconnect, List.erase_cons_head]
        simp only [List.foldl_cons, hd, ih]
        simp [List.filter_cons, hb]

/-- A tick from a live monitor that observes the idle flag exits the
loop without touching the session state. -/
theorem tick_exit (w : World) (now : Nat) (saveOk : Bool)
    (hm : w.monitors ≠ 0) (hrecv : w.st.is_receiving = false) :
    check_stream_timeout_tick w now saveOk =
      { w with monitors := w.monitors - 1 } := by
  simp [check_stream_timeout_tick, hm, hrecv]

/-- The session invariant of the spec: the buffer is non-empty
whenever the status is Receiving, and the last-activity timestamp is
set if and only if the status is Receiving. -/
def SessionInv (w : World) : Prop :=
  (w.st.is_receiving = true → w.st.data_stream_buffer ≠ []) ∧
  w.st.last_data_time.isSome = w.st.is_receiving

/-- Claim C1: for every sequence of non-empty ingested batches where
each batch arrives before the inactivity threshold elapses since the
previous one (so every monitor wake-up in between sees a gap within
the threshold), the session stays Receiving throughout, and the buffer
equals the concatenation of all batches of the session in arrival
order: the first batch after Idle replaces the buffer and every
subsequent batch is appended, never replaced. -/
theorem C1_receiving_accumulates_batches (w : World) (body : String)
    (now : Nat) (es : List Event)
    (hidle : w.st.is_receiving = false)
    (hne : extract_z_values body ≠ [])
    (ht : TraceOk (stepFn w (Event.ingest body now)) es = true) :
    (runTrace (stepFn w (Event.ingest body now)) es).st.is_receiving = true ∧
    (runTrace (stepFn w (Event.ingest body now)) es).st.data_stream_buffer
        = extract_z_values body ++ (sessionBatches es).flatten ∧
    ∀ p q : List Event, es = p ++ q →
      (runTrace (stepFn w (Event.ingest body now)) p).st.is_receiving = true := by
  have hstart := stepFn_ingest_idle w body now hidle hne
  have hmid : MidSession (stepFn w (Event.ingest body now)) := by
    rw [hstart]; exact ⟨rfl, rfl⟩
  obtain ⟨hm, hbuf, _⟩ := mid_run _ es hmid ht
  refine ⟨hm.1, ?_, ?_⟩
  · rw [hbuf, hstart]
  · intro p q hpq
    have htp : TraceOk (stepFn w (Event.ingest body now)) p = true :=
      traceOk_append_left _ p q (hpq ▸ ht)
    exact (mid_run _ p hmid htp).1.1

/-- Witness for C1: ingest the batch [1] at time 0, survive a monitor
wake-up at time 3 and a second batch [2, 3] at time 4. -/
theorem C1_witness :
    (runTrace (stepFn initWorld (Event.ingest "Z 1" 0))
        [Event.tick 3 true, Event.ingest "Z 2\nz 3" 4]).st.is_receiving = true ∧
    (runTrace (stepFn initWorld (Event.ingest "Z 1" 0))
        [Event.tick 3 true, Event.ingest "Z 2\nz 3" 4]).st.data_stream_buffer
        = extract_z_values "Z 1" ++
            (sessionBatches [Event.tick 3 true, Event.ingest "Z 2\nz 3" 4]).flatten ∧
    ∀ p q : List Event, [Event.tick 3 true, Event.ingest "Z 2\nz 3" 4] = p ++ q →
      (runTrace (stepFn initWorld (Event.ingest "Z 1" 0)) p).st.is_receiving = true :=
  C1_receiving_accumulates_batches initWorld "Z 1" 0
    [Event.tick 3 true, Event.ingest "Z 2\nz 3" 4]
    rfl (by decide) (by decide)

/-- Claim C2: when a live monitor wakes and the time since the
recorded last activity exceeds the inactivity threshold
(STREAM_TIMEOUT_SEC = 5 time units), it persists exactly one snapshot
holding precisely the readings accumulated so far, and the system
returns to Idle: the buffer is cleared, is_receiving becomes false and
last_data_time is cleared; with no further input, every later monitor
wake-up changes nothing, so no second snapshot is ever persisted. -/
theorem C2_timeout_persists_once (w : World) (t now : Nat)
    (hrecv : w.st.is_receiving = true)
    (hbuf : w.st.data_stream_buffer ≠ [])
    (hlast : w.st.last_data_time = some t)
    (hmon : w.monitors = 1)
    (hgap : STREAM_TIMEOUT_SEC < now - t) :
    (check_stream_timeout_tick w now true).saved
        = w.saved ++ [w.st.data_stream_buffer] ∧
    (check_stream_timeout_tick w now true).st.data_stream_buffer = [] ∧
    (check_stream_timeout_tick w now true).st.is_receiving = false ∧
    (check_stream_timeout_tick w now true).st.last_data_time = none ∧
    ∀ es : List Event, (∀ e ∈ es, Event.isTick e = true) →
      runTrace (check_stream_timeout_tick w now true) es
        = check_stream_timeout_tick w now true := by
  have hfire := tick_fire w t now true (by simp [hmon]) hrecv hlast hgap
  refine ⟨?_, ?_, ?_, ?_, ?_⟩
  · rw [hfire]
    simp [save_buffer_to_npy, hbuf]
  · rw [hfire]
  · rw [hfire]
  · rw [hfire]
  · intro es hts
    apply ticks_fixed _ es _ hts
    rw [hfire, hmon]

/-- Witness for C2: a session holding [5, 7] last active at time 2,
closed by a wake-up at time 8. -/
theorem C2_witness :
    (check_stream_timeout_tick
        { st := { data_stream_buffer := [5, 7], last_data_time := some 2,
                  is_receiving := true, total_batches_received := 2,
                  total_points_received := 2 },
          saved := [], monitors := 1 } 8 true).saved = [] ++ [[5, 7]] ∧
    (check_stream_timeout_tick
        { st := { data_stream_buffer := [5, 7], last_data_time := some 2,
                  is_receiving := true, total_batches_received := 2,
                  total_points_received := 2 },
          saved := [], monitors := 1 } 8 true).st.data_stream_buffer = [] ∧
    (check_stream_timeout_tick
        { st := { data_stream_buffer := [5, 7], last_data_time := some 2,
                  is_receiving := true, total_batches_received := 2,
                  total_points_received := 2 },
          saved := [], monitors := 1 } 8 true).st.is_receiving = false ∧
    (check_stream_timeout_tick
        { st := { data_stream_buffer := [5, 7], last_data_time := some 2,
                  is_receiving := true, total_batches_received := 2,
                  total_points_received := 2 },
          saved := [], monitors := 1 } 8 true).st.last_data_time = none ∧
    ∀ es : List Event, (∀ e ∈ es, Event.isTick e = true) →
      runTrace (check_stream_timeout_tick
        { st := { data_stream_buffer := [5, 7], last_data_time := some 2,
                  is_receiving := true, total_batches_received := 2,
                  total_points_received := 2 },
          saved := [], monitors := 1 } 8 true) es
        = check_stream_timeout_tick
        { st := { data_stream_buffer := [5, 7], last_data_time := some 2,
                  is_receiving := true, total_batches_received := 2,
                  total_points_received := 2 },
          saved := [], monitors := 1 } 8 true :=
  C2_timeout_persists_once _ 2 8 rfl (by decide) rfl rfl (by decide)

/-- Counterexample to claim C3: after the session holding [1, 2, 3]
closes (its snapshot is persisted) and before any new session starts,
get_stats answers no_data rather than the statistics of the most
recently active session. -/
theorem C3_counterexample :
    (runTrace initWorld
        [Event.ingest "Z 1\nZ 2\nZ 3" 0, Event.tick 6 true]).saved
      = [[1, 2, 3]] ∧
    get_stats (runTrace initWorld
        [Event.ingest "Z 1\nZ 2\nZ 3" 0, Event.tick 6 true]).st = none := by
  constructor
  · decide
  · decide

/-- Claim C3 as amended: get_stats returns NoData exactly when no
session is currently Receiving — before any ingestion, but also after
a session has closed and before a new one starts, because closing
clears the buffer that get_stats reads; while Receiving it reports
status active together with point count, batch count, mean, min, max,
spread and last-update timestamp consistent with the exact current
readings contents. -/
theorem C3_stats_amended (w : World) (hw : Reachable w) :
    (get_stats w.st = none ↔ w.st.is_receiving = false) ∧
    (w.st.is_receiving = true →
      get_stats w.st = some
        { status := "active"
          total_points := w.st.data_stream_buffer.length
          total_batches := w.st.total_batches_received
          average := npMean w.st.data_stream_buffer
          min := listMin w.st.data_stream_buffer
          max := listMax w.st.data_stream_buffer
          var := npVar w.st.data_stream_buffer
          last_update := w.st.last_data_time }) := by
  obtain ⟨hbuf, _, _⟩ := fullInv_reachable w hw
  constructor
  · constructor
    · intro hnone
      by_contra hrecv
      have hne : w.st.data_stream_buffer ≠ [] := by
        intro h0
        exact hrecv (hbuf.mp h0)
      simp [get_stats, hne] at hnone
    · intro hidle
      simp [get_stats, hbuf.mpr hidle]
  · intro hrecv
    have hne : w.st.data_stream_buffer ≠ [] := by
      intro h0
      rw [hbuf.mp h0] at hrecv
      exact Bool.false_ne_true hrecv
    simp [get_stats, hne, hrecv]

/-- Witness for the amended C3, at the initial world. -/
theorem C3_amended_witness :
    (get_stats initWorld.st = none ↔ initWorld.st.is_receiving = false) ∧
    (initWorld.st.is_receiving = true →
      get_stats initWorld.st = some
        { status := "active"
          total_points := initWorld.st.data_stream_buffer.length
          total_batches := initWorld.st.total_batches_received
          average := npMean initWorld.st.data_stream_buffer
          min := listMin initWorld.st.data_stream_buffer
          max := listMax initWorld.st.data_stream_buffer
          var := npVar initWorld.st.data_stream_buffer
          last_update := initWorld.st.last_data_time }) :=
  C3_stats_amended initWorld Reachable.init

/-- Claim C4: an ingestion request fails with the client-side
rejection "No valid data" if and only if the extracted integer batch
is empty; on that rejection no state is mutated (the step is the
identity, so a later stats query sees what it saw before); and every
non-empty extracted batch succeeds, answering the count of integers
accepted in this call. -/
theorem C4_reject_iff_empty (w : World) (body : String) (now : Nat) :
    (receive_co2_raw_data w body now = Except.error "No valid data"
      ↔ extract_z_values body = []) ∧
    (extract_z_values body = [] → stepFn w (Event.ingest body now) = w) ∧
    (extract_z_values body = [] →
      get_stats (stepFn w (Event.ingest body now)).st = get_stats w.st) ∧
    (extract_z_values body ≠ [] →
      receive_co2_raw_data w body now
        = Except.ok (stepFn w (Event.ingest body now),
            (extract_z_values body).length)) := by
  by_cases h : extract_z_values body = []
  · refine ⟨?_, ?_, ?_, ?_⟩
    · simp [receive_co2_raw_data, h]
    · intro _
      exact stepFn_ingest_empty w body now h
    · intro _
      rw [stepFn_ingest_empty w body now h]
    · intro hc
      exact absurd h hc
  · refine ⟨?_, ?_, ?_, ?_⟩
    · constructor
      · intro herr
        exfalso
        simp [receive_co2_raw_data, h] at herr
      · intro hc
        exact absurd hc h
    · intro hc
      exact absurd hc h
    · intro hc
      exact absurd hc h
    · intro _
      simp [stepFn, receive_co2_raw_data, h]

/-- Witness for C4, at the initial world with a body whose only line
is unparseable and with a body holding one valid reading. -/
theorem C4_witness :
    ((receive_co2_raw_data initWorld "hello" 0 = Except.error "No valid data"
      ↔ extract_z_values "hello" = []) ∧
    (extract_z_values "hello" = [] →
      stepFn initWorld (Event.ingest "hello" 0) = initWorld) ∧
    (extract_z_values "hello" = [] →
      get_stats (stepFn initWorld (Event.ingest "hello" 0)).st
        = get_stats initWorld.st) ∧
    (extract_z_values "hello" ≠ [] →
      receive_co2_raw_data initWorld "hello" 0
        = Except.ok (stepFn initWorld (Event.ingest "hello" 0),
            (extract_z_values "hello").length))) ∧
    (receive_co2_raw_data initWorld "Z 400" 0 = Except.error "No valid data"
      ↔ extract_z_values "Z 400" = []) :=
  ⟨C4_reject_iff_empty initWorld "hello" 0,
   (C4_reject_iff_empty initWorld "Z 400" 0).1⟩

/-- Claim C5: every atomic operation of the system (an ingestion
request, accepted or rejected, and a monitor wake-up, firing or not)
preserves the session invariant: the buffer is non-empty whenever the
status is Receiving, and the last-activity timestamp is set if and
only if the status is Receiving. -/
theorem C5_session_invariant_preserved (w : World) (e : Event)
    (h : SessionInv w) : SessionInv (stepFn w e) := by
  obtain ⟨hb, hl⟩ := h
  cases e with
  | ingest body now =>
      by_cases hne : extract_z_values body = []
      · rw [stepFn_ingest_empty w body now hne]
        exact ⟨hb, hl⟩
      · cases hrecv : w.st.is_receiving with
        | false =>
            rw [stepFn_ingest_idle w body now hrecv hne]
            exact ⟨fun _ => hne, by simp⟩
        | true =>
            rw [stepFn_ingest_recv w body now hrecv hne]
            refine ⟨fun _ => ?_, by simp⟩
            simp [hne]
  | tick now saveOk =>
      rw [stepFn_tick]
      by_cases hm : w.monitors = 0
      · rw [tick_no_monitor w now saveOk hm]
        exact ⟨hb, hl⟩
      · cases hrecv : w.st.is_receiving with
        | false =>
            rw [tick_exit w now saveOk hm hrecv]
            exact ⟨hb, hl⟩
        | true =>
            have hsome : w.st.last_data_time.isSome = true := by
              rw [hl, hrecv]
            obtain ⟨t, ht⟩ := Option.isSome_iff_exists.mp hsome
            by_cases hgap : STREAM_TIMEOUT_SEC < now - t
            · rw [tick_fire w t now saveOk hm hrecv ht hgap]
              exact ⟨fun hc => absurd hc (by simp), by simp⟩
            · rw [tick_no_fire w t now saveOk hrecv ht (Nat.not_lt.mp hgap)]
              exact ⟨hb, hl⟩

/-- Witness for C5: the invariant holds of the initial world and is
carried over an accepting ingestion step. -/
theorem C5_witness :
    SessionInv (stepFn initWorld (Event.ingest "Z 9" 0)) :=
  C5_session_invariant_preserved initWorld (Event.ingest "Z 9" 0)
    ⟨fun h => absurd h (by decide), rfl⟩

/-- Claim C6: broadcast delivers the serialized batch to each
currently registered healthy observer independently of any other
observer failing; every observer whose send failed is removed from
the observer set afterwards and the healthy ones remain; and
broadcasting to zero observers does nothing and never errors. -/
theorem C6_broadcast_isolates_failures (conns : List Observer)
    (data : List Int) :
    (broadcast_data conns data).1
        = (conns.filter fun c => c.sendOk).map (fun c => (c, json_dumps data)) ∧
    (broadcast_data conns data).2 = conns.filter (fun c => c.sendOk) ∧
    (∀ c ∈ conns, c.sendOk = true →
      (c, json_dumps data) ∈ (broadcast_data conns data).1) ∧
    (∀ c ∈ conns, c.sendOk = false →
      c ∉ (broadcast_data conns data).2) ∧
    broadcast_data [] data = ([], []) := by
  have h1 : (broadcast_data conns data).1
      = (conns.filter fun c => c.sendOk).map (fun c => (c, json_dumps data)) := by
    simp [broadcast_data, send_attempts_fst]
  have h2 : (broadcast_data conns data).2 = conns.filter (fun c => c.sendOk) := by
    simp [broadcast_data, send_attempts_snd, foldl_disconnect_failures]
  refine ⟨h1, h2, ?_, ?_, rfl⟩
  · intro c hc hok
    rw [h1]
    exact List.mem_map_of_mem _ (List.mem_filter.mpr ⟨hc, hok⟩)
  · intro c _ hfail hmem
    rw [h2] at hmem
    have := (List.mem_filter.mp hmem).2
    rw [hfail] at this
    exact Bool.false_ne_true this

/-- Witness for C6: three observers of which the middle one fails. -/
theorem C6_witness :
    (broadcast_data [⟨0, true⟩, ⟨1, false⟩, ⟨2, true⟩] [4, -2]).1
        = (([⟨0, true⟩, ⟨1, false⟩, ⟨2, true⟩] : List Observer).filter
            fun c => c.sendOk).map (fun c => (c, json_dumps [4, -2])) ∧
    (broadcast_data [⟨0, true⟩, ⟨1, false⟩, ⟨2, true⟩] [4, -2]).2
        = ([⟨0, true⟩, ⟨1, false⟩, ⟨2, true⟩] : List Observer).filter
            (fun c => c.sendOk) ∧
    (∀ c ∈ ([⟨0, true⟩, ⟨1, false⟩, ⟨2, true⟩] : List Observer),
      c.sendOk = true →
      (c, json_dumps [4, -2])
        ∈ (broadcast_data [⟨0, true⟩, ⟨1, false⟩, ⟨2, true⟩] [4, -2]).1) ∧
    (∀ c ∈ ([⟨0, true⟩, ⟨1, false⟩, ⟨2, true⟩] : List Observer),
      c.sendOk = false →
      c ∉ (broadcast_data [⟨0, true⟩, ⟨1, false⟩, ⟨2, true⟩] [4, -2]).2) ∧
    broadcast_data [] [4, -2] = ([], []) :=
  C6_broadcast_isolates_failures [⟨0, true⟩, ⟨1, false⟩, ⟨2, true⟩] [4, -2]

/-- Claim C7: in every reachable interleaving of ingestion requests
and monitor wake-ups, the number of live monitor tasks is one while
Receiving and zero while Idle; in particular at most one monitor is
ever live, so an Idle-to-Receiving transition starts its new monitor
only after the prior monitor has already terminated. -/
theorem C7_at_most_one_monitor (w : World) (hw : Reachable w) :
    w.monitors = (if w.st.is_receiving then 1 else 0) ∧ w.monitors ≤ 1 := by
  obtain ⟨_, _, hmon⟩ := fullInv_reachable w hw
  refine ⟨hmon, ?_⟩
  rw [hmon]
  cases w.st.is_receiving <;> simp

/-- Witness for C7, at the initial world. -/
theorem C7_witness :
    initWorld.monitors = (if initWorld.st.is_receiving then 1 else 0) ∧
    initWorld.monitors ≤ 1 :=
  C7_at_most_one_monitor initWorld Reachable.init

/-- Claim C8: a failure inside the persister is caught on the timeout
path, persistence is attempted exactly once with no retry (on failure
nothing is persisted, on success exactly one snapshot is), and the
session state is reset to Idle identically whether persisting
succeeded or failed. -/
theorem C8_persist_failure_isolated (w : World) (t now : Nat)
    (hrecv : w.st.is_receiving = true)
    (hbuf : w.st.data_stream_buffer ≠ [])
    (hlast : w.st.last_data_time = some t)
    (hmon : w.monitors ≠ 0)
    (hgap : STREAM_TIMEOUT_SEC < now - t) :
    (check_stream_timeout_tick w now true).st
        = (check_stream_timeout_tick w now false).st ∧
    (check_stream_timeout_tick w now false).st.data_stream_buffer = [] ∧
    (check_stream_timeout_tick w now false).st.is_receiving = false ∧
    (check_stream_timeout_tick w now false).st.last_data_time = none ∧
    (check_stream_timeout_tick w now true).saved
        = w.saved ++ [w.st.data_stream_buffer] ∧
    (check_stream_timeout_tick w now false).saved = w.saved := by
  have hfT := tick_fire w t now true hmon hrecv hlast hgap
  have hfF := tick_fire w t now false hmon hrecv hlast hgap
  refine ⟨?_, ?_, ?_, ?_, ?_, ?_⟩
  · rw [hfT, hfF]
  · rw [hfF]
  · rw [hfF]
  · rw [hfF]
  · rw [hfT]
    simp [save_buffer_to_npy, hbuf]
  · rw [hfF]
    simp [save_buffer_to_npy, hbuf]

/-- Witness for C8: a session holding [9] last active at time 0,
closed by a wake-up at time 7. -/
theorem C8_witness :
    (check_stream_timeout_tick
        { st := { data_stream_buffer := [9], last_data_time := some 0,
                  is_receiving := true, total_batches_received := 1,
                  total_points_received := 1 },
          saved := [[4]], monitors := 1 } 7 true).st
        = (check_stream_timeout_tick
        { st := { data_stream_buffer := [9], last_data_time := some 0,
                  is_receiving := true, total_batches_received := 1,
                  total_points_received := 1 },
          saved := [[4]], monitors := 1 } 7 false).st ∧
    (check_stream_timeout_tick
        { st := { data_stream_buffer := [9], last_data_time := some 0,
                  is_receiving := true, total_batches_received := 1,
                  total_points_received := 1 },
          saved := [[4]], monitors := 1 } 7 false).st.data_stream_buffer = [] ∧
    (check_stream_timeout_tick
        { st := { data_stream_buffer := [9], last_data_time := some 0,
                  is_receiving := true, total_batches_received := 1,
                  total_points_received := 1 },
          saved := [[4]], monitors := 1 } 7 false).st.is_receiving = false ∧
    (check_stream_timeout_tick
        { st := { data_stream_buffer := [9], last_data_time := some 0,
                  is_receiving := true, total_batches_received := 1,
                  total_points_received := 1 },
          saved := [[4]], monitors := 1 } 7 false).st.last_data_time = none ∧
    (check_stream_timeout_tick
        { st := { data_stream_buffer := [9], last_data_time := some 0,
                  is_receiving := true, total_batches_received := 1,
                  total_points_received := 1 },
          saved := [[4]], monitors := 1 } 7 true).saved = [[4]] ++ [[9]] ∧
    (check_stream_timeout_tick
        { st := { data_stream_buffer := [9], last_data_time := some 0,
                  is_receiving := true, total_batches_received := 1,
                  total_points_received := 1 },
          saved := [[4]], monitors := 1 } 7 false).saved = [[4]] :=
  C8_persist_failure_isolated _ 0 7 rfl (by decide) rfl (by decide) (by decide)

/-- Claim C9: after a session has closed, the next ingested non-empty
batch starts a brand-new session whose buffer is exactly that batch
(all prior readings excluded): the Idle-to-Receiving transition
replaces the buffer and resets both counters to zero before counting
the new batch, so the batch counter becomes 1 and the point counter
the batch length. -/
theorem C9_new_session_no_leakage (w : World) (body : String) (now : Nat)
    (hidle : w.st.is_receiving = false)
    (hne : extract_z_values body ≠ []) :
    (stepFn w (Event.ingest body now)).st.data_stream_buffer
        = extract_z_values body ∧
    (stepFn w (Event.ingest body now)).st.total_batches_received = 1 ∧
    (stepFn w (Event.ingest body now)).st.total_points_received
        = (extract_z_values body).length ∧
    (stepFn w (Event.ingest body now)).st.is_receiving = true := by
  rw [stepFn_ingest_idle w body now hidle hne]
  exact ⟨rfl, rfl, rfl, rfl⟩

/-- Witness for C9: a world that closed a session holding [1, 2] takes
the batch [10, 20] as a fresh session. -/
theorem C9_witness :
    (stepFn
        { st := { data_stream_buffer := [], last_data_time := none,
                  is_receiving := false, total_batches_received := 2,
                  total_points_received := 2 },
          saved := [[1, 2]], monitors := 0 }
        (Event.ingest "Z 10\nZ 20" 9)).st.data_stream_buffer
        = extract_z_values "Z 10\nZ 20" ∧
    (stepFn
        { st := { data_stream_buffer := [], last_data_time := none,
                  is_receiving := false, total_batches_received := 2,
                  total_points_received := 2 },
          saved := [[1, 2]], monitors := 0 }
        (Event.ingest "Z 10\nZ 20" 9)).st.total_batches_received = 1 ∧
    (stepFn
        { st := { data_stream_buffer := [], last_data_time := none,
                  is_receiving := false, total_batches_received := 2,
                  total_points_received := 2 },
          saved := [[1, 2]], monitors := 0 }
        (Event.ingest "Z 10\nZ 20" 9)).st.total_points_received
        = (extract_z_values "Z 10\nZ 20").length ∧
    (stepFn
        { st := { data_stream_buffer := [], last_data_time := none,
                  is_receiving := false, total_batches_received := 2,
                  total_points_received := 2 },
          saved := [[1, 2]], monitors := 0 }
        (Event.ingest "Z 10\nZ 20" 9)).st.is_receiving = true :=
  C9_new_session_no_leakage _ "Z 10\nZ 20" 9 rfl (by decide)

/-- Claim C10: in every reachable state a non-empty buffer implies the
status is Receiving (closing clears the buffer in the same atomic step
that leaves Receiving), so the ended branch of get_stats is
unreachable: every some answer of get_stats reports status active. -/
theorem C10_ended_branch_unreachable (w : World) (hw : Reachable w) :
    (w.st.data_stream_buffer ≠ [] → w.st.is_receiving = true) ∧
    ∀ r : StatsResponse, get_stats w.st = some r → r.status = "active" := by
  obtain ⟨hbuf, _, _⟩ := fullInv_reachable w hw
  have himp : w.st.data_stream_buffer ≠ [] → w.st.is_receiving = true := by
    intro hne
    cases hrecv : w.st.is_receiving with
    | false => exact absurd (hbuf.mpr hrecv) hne
    | true => rfl
  refine ⟨himp, ?_⟩
  intro r hr
  have hne : w.st.data_stream_buffer ≠ [] := by
    intro h0
    simp [get_stats, h0] at hr
  have hrecv := himp hne
  simp [get_stats, hne, hrecv] at hr
  rw [← hr]

/-- Witness for C10, at the initial world. -/
theorem C10_witness :
    (initWorld.st.data_stream_buffer ≠ [] →
      initWorld.st.is_receiving = true) ∧
    ∀ r : StatsResponse, get_stats initWorld.st = some r →
      r.status = "active" :=
  C10_ended_branch_unreachable initWorld Reachable.init

/-- Sanity check of the line extractor on the device wire format:
zero-padded values parse, lower-case markers are accepted, and
non-matching or malformed lines are skipped. -/
theorem extract_z_values_example :
    extract_z_values "Z 00421\nz 17\nfoo\nZ\nZ abc" = [421, 17] := by decide

end CO2Server
